import Mathlib

/-!
Verification of the sleep-session cache and walker of `quelf/sleepcycle.py`.

The development shallowly embeds the cache (`SleepSessionsCache`), its
persistence format, and the fetch loop (`SleepSessions.update_cache` /
`SleepSessions.sleep_session`) as executable Lean functions, and proves the
specified properties about them.

Modelling conventions:
* Python `dict` with integer keys is an insertion-ordered association list
  with unique keys; `d[k] = v` updates in place when `k` is present and
  appends otherwise.
* Python exceptions are an explicit `PyError` value threaded through
  `Except`; `assert session_id != 0` failing is `PyError.assertionError`.
* The remote HTTP session is a pure oracle `Query → Option SleepSessionJSON`;
  `none` models a response body that fails to parse as JSON
  (`json.decoder.JSONDecodeError`).
* The `while` loop of `update_cache` is unrolled on explicit fuel; `none`
  as overall result means the fuel was exhausted before the loop exited.
* `if not self.cache.newest:` tests `None`-ness of the newest record: every
  record handled by this code carries an `id` field, so its dict form is a
  non-empty (truthy) Python dict.
* `str`/`int` conversion of ids during JSON persistence is modelled
  structurally: a numeric string is a sign bit plus little-endian decimal
  digits (`Nat.digits 10`).
-/

deriving instance DecidableEq for Except

namespace Quelf

/-- One sleep-session JSON object: its integer `id` field plus an opaque tag
standing for the remaining payload fields. -/
structure SleepSessionJSON where
  id : Int
  payload : Nat
deriving DecidableEq, Repr

/-- Python exceptions observable in `sleepcycle.py`. -/
inductive PyError where
  | assertionError
  | keyError (key : String)
  | keyErrorInt (key : Int)
  | valueError (msg : String)
  | jsonDecodeError
  | typeError
deriving DecidableEq, Repr

/-- Membership test of a Python dict with `Int` keys (`k in d`). -/
def dictContains {α : Type} : List (Int × α) → Int → Bool
  | [], _ => false
  | p :: d, k => decide (p.1 = k) || dictContains d k

/-- Lookup in a Python dict with `Int` keys (`d[k]`, `none` = `KeyError`). -/
def dictGet? {α : Type} : List (Int × α) → Int → Option α
  | [], _ => none
  | p :: d, k => if p.1 = k then some p.2 else dictGet? d k

/-- Assignment `d[k] = v` in a Python dict with `Int` keys: in-place update
when present, append when absent. -/
def dictSet {α : Type} (d : List (Int × α)) (k : Int) (v : α) : List (Int × α) :=
  if dictContains d k then d.map fun p => if p.1 = k then (k, v) else p
  else d ++ [(k, v)]

/-- Lookup in a Python dict with `String` keys. -/
def lookupStr {α : Type} : List (String × α) → String → Option α
  | [], _ => none
  | p :: d, k => if p.1 = k then some p.2 else lookupStr d k

/-- The in-memory cache state `SleepSessionsCache.memory`
(`SleepSessionsJSONCache` TypedDict). -/
structure SleepSessionsJSONCache where
  sleep_sessions : List (Int × SleepSessionJSON)
  newest_session_id : Int
  first_session_id : Int
deriving DecidableEq, Repr

/-- The freshly initialized cache memory (missing-file branch of
`SleepSessionsCache.__init__`). -/
def emptyCacheMemory : SleepSessionsJSONCache :=
  { sleep_sessions := [], newest_session_id := 0, first_session_id := 0 }

/-- `SleepSessionsCache.__setitem__`: assert the id is non-zero, store the
record, set `newest_session_id` unconditionally, set `first_session_id` only
when it is currently falsy (0), then persist. -/
def setItem (c : SleepSessionsJSONCache) (session_id : Int)
    (sleep_session_json : SleepSessionJSON) : Except PyError SleepSessionsJSONCache :=
  if session_id = 0 then .error .assertionError
  else .ok
    { sleep_sessions := dictSet c.sleep_sessions session_id sleep_session_json
      newest_session_id := session_id
      first_session_id :=
        if c.first_session_id = 0 then session_id else c.first_session_id }

/-- `SleepSessionsCache.insert`: `self[int(session['id'])] = session`. -/
def cacheInsert (c : SleepSessionsJSONCache) (s : SleepSessionJSON) :
    Except PyError SleepSessionsJSONCache :=
  setItem c s.id s

/-- `SleepSessionsCache.newest` property (`None` on `KeyError`). -/
def cacheNewest (c : SleepSessionsJSONCache) : Option SleepSessionJSON :=
  dictGet? c.sleep_sessions c.newest_session_id

/-- `SleepSessionsCache.first` property (`None` on `KeyError`). -/
def cacheFirst (c : SleepSessionsJSONCache) : Option SleepSessionJSON :=
  dictGet? c.sleep_sessions c.first_session_id

/-- A sequence of `SleepSessionsCache.insert` calls, stopping at the first
raised error. -/
def insertAll (l : List SleepSessionJSON) (c : SleepSessionsJSONCache) :
    Except PyError SleepSessionsJSONCache :=
  match l with
  | [] => .ok c
  | s :: rest =>
    match cacheInsert c s with
    | .error e => .error e
    | .ok c' => insertAll rest c'

/-- Direction of a `/stat/session` query: exact id, `next=1`, or `prev=1`.
When both flags are given, `next_` wins (`if next_: ... elif previous:`). -/
inductive Direction where
  | exact
  | next
  | prev
deriving DecidableEq, Repr

/-- One remote request: the `id` parameter and the direction flag. -/
structure Query where
  id : Int
  direction : Direction
deriving DecidableEq, Repr

/-- The query `SleepSessions.sleep_session` builds from its arguments. -/
def queryOf (session_id : Int) (next_ previous : Bool) : Query :=
  { id := session_id
    direction := if next_ then .next else if previous then .prev else .exact }

/-- Observable actions of the walker: remote HTTP requests and calls of
`SleepSessionsCache.__setitem__` (recording whether the id was already a key
of the cache at call time). -/
inductive Event where
  | remoteCall (q : Query)
  | insertCall (session_id : Int) (alreadyPresent : Bool)
deriving DecidableEq, Repr

/-- Number of remote HTTP requests in an event trace. -/
def remoteCalls (t : List Event) : Nat :=
  (t.filter fun e => match e with | .remoteCall _ => true | _ => false).length

/-- `SleepSessions.sleep_session`: serve an exact-id request from the cache
when possible; otherwise issue one remote request, cache an unseen response
record, and translate a JSON parse failure of a `next`/`prev` request into
`ValueError`. Returns the Python result together with the event trace. -/
def sleep_session (remote : Query → Option SleepSessionJSON)
    (cache : SleepSessionsJSONCache) (session_id : Int) (next_ previous : Bool) :
    Except PyError (SleepSessionJSON × SleepSessionsJSONCache) × List Event :=
  if !next_ && !previous && dictContains cache.sleep_sessions session_id then
    match dictGet? cache.sleep_sessions session_id with
    | some r => (.ok (r, cache), [])
    | none => (.error (.keyErrorInt session_id), [])
  else
    match remote (queryOf session_id next_ previous) with
    | none =>
      if next_ then
        (.error (.valueError "No next sleepsession"),
         [.remoteCall (queryOf session_id next_ previous)])
      else if previous then
        (.error (.valueError "No previous sleepsession"),
         [.remoteCall (queryOf session_id next_ previous)])
      else (.error .jsonDecodeError, [.remoteCall (queryOf session_id next_ previous)])
    | some resp =>
      if dictContains cache.sleep_sessions resp.id then
        (.ok (resp, cache), [.remoteCall (queryOf session_id next_ previous)])
      else
        match setItem cache resp.id resp with
        | .ok c' =>
          (.ok (resp, c'),
           [.remoteCall (queryOf session_id next_ previous),
            .insertCall resp.id (dictContains cache.sleep_sessions resp.id)])
        | .error e =>
          (.error e,
           [.remoteCall (queryOf session_id next_ previous),
            .insertCall resp.id (dictContains cache.sleep_sessions resp.id)])

/-- The `while self.last_sleepsession_id not in self.cache:` loop of
`SleepSessions.update_cache`, unrolled on fuel. Each iteration fetches NEXT
of the cache's newest record via `sleep_session` (which already caches an
unseen response) and then re-inserts the returned record unconditionally
(`self.cache.insert(...)`). `none` means the fuel ran out first. -/
def update_cache_loop (remote : Query → Option SleepSessionJSON)
    (last_sleepsession_id : Int) :
    Nat → SleepSessionsJSONCache →
      Option (Except PyError SleepSessionsJSONCache × List Event)
  | fuel, cache =>
    if dictContains cache.sleep_sessions last_sleepsession_id then some (.ok cache, [])
    else
      match fuel with
      | 0 => none
      | fuel' + 1 =>
        match cacheNewest cache with
        | none => some (.error .typeError, [])
        | some newestRec =>
          match sleep_session remote cache newestRec.id true false with
          | (.error e, evs) => some (.error e, evs)
          | (.ok (resp, cache1), evs) =>
            let evs2 :=
              evs ++ [Event.insertCall resp.id (dictContains cache1.sleep_sessions resp.id)]
            match cacheInsert cache1 resp with
            | .error e => some (.error e, evs2)
            | .ok cache2 =>
              match update_cache_loop remote last_sleepsession_id fuel' cache2 with
              | none => none
              | some (res, evs3) => some (res, evs2 ++ evs3)

/-- `SleepSessions.update_cache`: seed an empty cache with an exact-id fetch
of `first_sleepsession_id`, then run the NEXT-walking loop until
`last_sleepsession_id` is cached. -/
def update_cache (remote : Query → Option SleepSessionJSON)
    (first_sleepsession_id last_sleepsession_id : Int)
    (cache : SleepSessionsJSONCache) (fuel : Nat) :
    Option (Except PyError SleepSessionsJSONCache × List Event) :=
  match cacheNewest cache with
  | some _ => update_cache_loop remote last_sleepsession_id fuel cache
  | none =>
    match sleep_session remote cache first_sleepsession_id false false with
    | (.error e, evs) => some (.error e, evs)
    | (.ok (resp, cache1), evs) =>
      let evs2 := evs ++ [Event.insertCall resp.id (dictContains cache1.sleep_sessions resp.id)]
      match cacheInsert cache1 resp with
      | .error e => some (.error e, evs2)
      | .ok cache2 =>
        match update_cache_loop remote last_sleepsession_id fuel cache2 with
        | none => none
        | some (res, evs3) => some (res, evs2 ++ evs3)

/-- Python `str` of an int, modelled structurally as a sign bit plus the
little-endian decimal digits of its absolute value. -/
def pyStrOfInt (n : Int) : Bool × List Nat :=
  (decide (n < 0), Nat.digits 10 n.natAbs)

/-- Python `int` applied to such a numeric string. -/
def pyIntOfStr (s : Bool × List Nat) : Int :=
  if s.1 then -(((Nat.ofDigits 10 s.2 : Nat) : Int)) else ((Nat.ofDigits 10 s.2 : Nat) : Int)

/-- One top-level JSON value inside the persisted cache file: an integer
field, a mapping from numeric strings to records, or a bare record (as found
at top level in the legacy bare id-to-record file shape). -/
inductive FileField where
  | intVal (n : Int)
  | recordMap (m : List ((Bool × List Nat) × SleepSessionJSON))
  | record (r : SleepSessionJSON)
deriving DecidableEq, Repr

/-- A parsed persisted cache file: a JSON mapping from string field names to
values. A file that is not valid JSON is `none` at use sites. -/
structure RawFile where
  entries : List (String × FileField)
deriving DecidableEq, Repr

/-- `json.dump(self.memory, cache_file)`: integer dict keys are serialized
as their decimal strings. -/
def cacheSave (c : SleepSessionsJSONCache) : RawFile :=
  { entries :=
      [("sleep_sessions", .recordMap (c.sleep_sessions.map fun p => (pyStrOfInt p.1, p.2))),
       ("newest_session_id", .intVal c.newest_session_id),
       ("first_session_id", .intVal c.first_session_id)] }

/-- The existing-file branch of `SleepSessionsCache.__init__`: parse the
file (`none` input = `JSONDecodeError`), read `content['sleep_sessions']`
(`KeyError` when absent), cast its string keys back to integers, then keep
the marker fields when `content['newest_session_id']` is truthy and reset
them to 0 otherwise. Field accesses of unexpectedly-typed values are
modelled coarsely as `typeError`. -/
def cacheLoad (file : Option RawFile) : Except PyError SleepSessionsJSONCache :=
  match file with
  | none => .error .jsonDecodeError
  | some content =>
    match lookupStr content.entries "sleep_sessions" with
    | none => .error (.keyError "sleep_sessions")
    | some (.recordMap m) =>
      let ss := m.map fun p => (pyIntOfStr p.1, p.2)
      match lookupStr content.entries "newest_session_id" with
      | none => .error (.keyError "newest_session_id")
      | some (.intVal nid) =>
        if nid = 0 then
          .ok { sleep_sessions := ss, newest_session_id := 0, first_session_id := 0 }
        else
          match lookupStr content.entries "first_session_id" with
          | none => .error (.keyError "first_session_id")
          | some (.intVal fid) =>
            .ok { sleep_sessions := ss, newest_session_id := nid, first_session_id := fid }
          | some _ => .error .typeError
      | some _ => .error .typeError
    | some _ => .error .typeError

/-! ### Concrete scenario data -/

/-- Remote record with id 10 in the walk scenario. -/
def rec10 : SleepSessionJSON := { id := 10, payload := 100 }

/-- Remote record with id 11 in the walk scenario. -/
def rec11 : SleepSessionJSON := { id := 11, payload := 101 }

/-- Remote record with id 12 in the walk scenario. -/
def rec12 : SleepSessionJSON := { id := 12, payload := 102 }

/-- The remote session of the walk scenario: it answers the exact query for
id 10 with record 10, NEXT-of-10 with record 11, and NEXT-of-11 with
record 12. -/
def remoteWalk : Query → Option SleepSessionJSON := fun q =>
  if q = { id := 10, direction := .exact } then some rec10
  else if q = { id := 10, direction := .next } then some rec11
  else if q = { id := 11, direction := .next } then some rec12
  else none

/-- The cache holding exactly records 10, 11, 12 with `first_session_id = 10`
and `newest_session_id = 12`. -/
def cache101112 : SleepSessionsJSONCache :=
  { sleep_sessions := [(10, rec10), (11, rec11), (12, rec12)]
    newest_session_id := 12
    first_session_id := 10 }

/-- The event trace of the walk scenario run from an empty cache: an exact
fetch of 10 followed by NEXT fetches of 10 and 11, each record inserted
first by `sleep_session` (id absent) and then re-inserted by `update_cache`
(id already present). -/
def eventsWalk : List Event :=
  [.remoteCall { id := 10, direction := .exact }, .insertCall 10 false, .insertCall 10 true,
   .remoteCall { id := 10, direction := .next }, .insertCall 11 false, .insertCall 11 true,
   .remoteCall { id := 11, direction := .next }, .insertCall 12 false, .insertCall 12 true]

/-- Record with id 5 and payload tag 0. -/
def rec5a : SleepSessionJSON := { id := 5, payload := 0 }

/-- Record with id 5 and payload tag 1: same id as `rec5a`, different
payload. -/
def rec5b : SleepSessionJSON := { id := 5, payload := 1 }

/-- The cache after inserting `rec5a` into the empty cache. -/
def cache5 : SleepSessionsJSONCache :=
  { sleep_sessions := [(5, rec5a)], newest_session_id := 5, first_session_id := 5 }

/-- The cache after inserting records 10 and 11 into the empty cache. -/
def cacheW : SleepSessionsJSONCache :=
  { sleep_sessions := [(10, rec10), (11, rec11)]
    newest_session_id := 11
    first_session_id := 10 }

/-- A legacy-shape cache file: a bare mapping of numeric-string ids to
records, with no explicit marker fields. -/
def legacyFile : RawFile :=
  { entries := [("10", .record rec10), ("11", .record rec11)] }

/-! ### Dictionary lemmas -/

theorem dictGet?_isSome_eq_contains {α : Type} (d : List (Int × α)) (k : Int) :
    (dictGet? d k).isSome = dictContains d k := by
  induction d with
  | nil => rfl
  | cons p d ih =>
    by_cases h : p.1 = k
    · simp [dictGet?, dictContains, h]
    · simp [dictGet?, dictContains, h, ih]

theorem dictGet?_map_update {α : Type} (d : List (Int × α)) (k : Int) (v : α)
    (hc : dictContains d k = true) :
    dictGet? (d.map fun p => if p.1 = k then (k, v) else p) k = some v := by
  induction d with
  | nil => simp [dictContains] at hc
  | cons p d ih =>
    by_cases h : p.1 = k
    · simp [dictGet?, h]
    · have hc' : dictContains d k = true := by simpa [dictContains, h] using hc
      simp [dictGet?, h, ih hc']

theorem dictGet?_append_self {α : Type} (d : List (Int × α)) (k : Int) (v : α)
    (hc : dictContains d k = false) :
    dictGet? (d ++ [(k, v)]) k = some v := by
  induction d with
  | nil => simp [dictGet?]
  | cons p d ih =>
    simp only [dictContains, Bool.or_eq_false_iff, decide_eq_false_iff_not] at hc
    simp [dictGet?, hc.1, ih hc.2]

theorem dictGet?_dictSet_self {α : Type} (d : List (Int × α)) (k : Int) (v : α) :
    dictGet? (dictSet d k v) k = some v := by
  unfold dictSet
  by_cases hc : dictContains d k = true
  · rw [if_pos hc]; exact dictGet?_map_update d k v hc
  · rw [if_neg hc]
    exact dictGet?_append_self d k v (by simpa using hc)

theorem dictGet?_map_update_ne {α : Type} (d : List (Int × α)) (k k' : Int) (v : α)
    (hne : k' ≠ k) :
    dictGet? (d.map fun p => if p.1 = k' then (k', v) else p) k = dictGet? d k := by
  induction d with
  | nil => rfl
  | cons p d ih =>
    by_cases h : p.1 = k'
    · simp [dictGet?, h, hne, ih]
    · simp [dictGet?, h, ih]

theorem dictGet?_append_ne {α : Type} (d : List (Int × α)) (k k' : Int) (v : α)
    (hne : k' ≠ k) :
    dictGet? (d ++ [(k', v)]) k = dictGet? d k := by
  induction d with
  | nil => simp [dictGet?, hne]
  | cons p d ih =>
    by_cases h : p.1 = k
    · simp [dictGet?, h]
    · simp [dictGet?, h, ih]

theorem dictGet?_dictSet_ne {α : Type} (d : List (Int × α)) (k k' : Int) (v : α)
    (hne : k' ≠ k) :
    dictGet? (dictSet d k' v) k = dictGet? d k := by
  unfold dictSet
  by_cases hc : dictContains d k' = true
  · rw [if_pos hc]; exact dictGet?_map_update_ne d k k' v hne
  · rw [if_neg hc]; exact dictGet?_append_ne d k k' v hne

theorem lookupStr_eq_none {α : Type} (d : List (String × α)) (k : String)
    (h : ∀ p ∈ d, p.1 ≠ k) : lookupStr d k = none := by
  induction d with
  | nil => rfl
  | cons p d ih =>
    simp only [lookupStr, if_neg (h p (by simp))]
    exact ih fun q hq => h q (by simp [hq])

/-! ### Cache insertion lemmas -/

theorem cacheInsert_ok (c0 c1 : SleepSessionsJSONCache) (s : SleepSessionJSON)
    (h : cacheInsert c0 s = .ok c1) :
    s.id ≠ 0 ∧
      c1 = { sleep_sessions := dictSet c0.sleep_sessions s.id s
             newest_session_id := s.id
             first_session_id :=
               if c0.first_session_id = 0 then s.id else c0.first_session_id } := by
  unfold cacheInsert setItem at h
  split at h
  · exact Except.noConfusion h
  · exact ⟨by assumption, (Except.ok.inj h).symm⟩

theorem insertAll_newest_ne_zero (l : List SleepSessionJSON) :
    ∀ c0 c : SleepSessionsJSONCache, insertAll l c0 = .ok c →
      c = c0 ∨ c.newest_session_id ≠ 0 := by
  induction l with
  | nil => intro c0 c h; exact Or.inl (Except.ok.inj h).symm
  | cons s t ih =>
    intro c0 c h
    unfold insertAll at h
    cases hins : cacheInsert c0 s with
    | error e => rw [hins] at h; exact Except.noConfusion h
    | ok c1 =>
      rw [hins] at h
      obtain ⟨hid, hc1⟩ := cacheInsert_ok c0 c1 s hins
      rcases ih c1 c h with hc | hne
      · right; rw [hc, hc1]; exact hid
      · right; exact hne

theorem insertAll_first (l : List SleepSessionJSON) :
    ∀ c0 c : SleepSessionsJSONCache,
      c0.first_session_id ≠ 0 →
      (∀ s ∈ l, s.id ≠ c0.first_session_id) →
      insertAll l c0 = .ok c →
      c.first_session_id = c0.first_session_id ∧
        dictGet? c.sleep_sessions c0.first_session_id =
          dictGet? c0.sleep_sessions c0.first_session_id := by
  induction l with
  | nil =>
    intro c0 c _ _ h
    obtain rfl : c0 = c := Except.ok.inj h
    exact ⟨rfl, rfl⟩
  | cons s t ih =>
    intro c0 c h0 hne h
    unfold insertAll at h
    cases hins : cacheInsert c0 s with
    | error e => rw [hins] at h; exact Except.noConfusion h
    | ok c1 =>
      rw [hins] at h
      obtain ⟨hid, hc1⟩ := cacheInsert_ok c0 c1 s hins
      have hfid : c1.first_session_id = c0.first_session_id := by
        rw [hc1]; simp [h0]
      have hget : dictGet? c1.sleep_sessions c0.first_session_id =
          dictGet? c0.sleep_sessions c0.first_session_id := by
        rw [hc1]; exact dictGet?_dictSet_ne _ _ _ _ (hne s (by simp))
      have h0' : c1.first_session_id ≠ 0 := by rw [hfid]; exact h0
      have hne' : ∀ s' ∈ t, s'.id ≠ c1.first_session_id := by
        intro s' hs'; rw [hfid]; exact hne s' (by simp [hs'])
      obtain ⟨ha, hb⟩ := ih c1 c h0' hne' h
      rw [hfid] at ha hb
      exact ⟨ha, hb.trans hget⟩

theorem insertAll_newest (l : List SleepSessionJSON) :
    ∀ c0 c : SleepSessionsJSONCache, insertAll l c0 = .ok c → l ≠ [] →
      ∃ s, l.getLast? = some s ∧ c.newest_session_id = s.id ∧
        dictGet? c.sleep_sessions s.id = some s := by
  induction l with
  | nil => intro _ _ _ hne; exact absurd rfl hne
  | cons s t ih =>
    intro c0 c h _
    unfold insertAll at h
    cases hins : cacheInsert c0 s with
    | error e => rw [hins] at h; exact Except.noConfusion h
    | ok c1 =>
      rw [hins] at h
      obtain ⟨hid, hc1⟩ := cacheInsert_ok c0 c1 s hins
      cases t with
      | nil =>
        obtain rfl : c1 = c := Except.ok.inj h
        refine ⟨s, rfl, ?_, ?_⟩
        · rw [hc1]
        · rw [hc1]; exact dictGet?_dictSet_self _ _ _
      | cons s2 t2 =>
        obtain ⟨sl, hl, hn, hg⟩ := ih c1 c h (by simp)
        exact ⟨sl, by rw [List.getLast?_cons_cons]; exact hl, hn, hg⟩

/-! ### Persistence round-trip lemmas -/

theorem pyIntOfStr_pyStrOfInt (n : Int) : pyIntOfStr (pyStrOfInt n) = n := by
  simp only [pyStrOfInt, pyIntOfStr, Nat.ofDigits_digits, decide_eq_true_eq]
  by_cases h : n < 0
  · rw [if_pos h]; omega
  · rw [if_neg h]; omega

theorem recordMap_roundtrip (d : List (Int × SleepSessionJSON)) :
    (d.map fun p => (pyStrOfInt p.1, p.2)).map (fun p => (pyIntOfStr p.1, p.2)) = d := by
  induction d with
  | nil => rfl
  | cons a t ih => simp [pyIntOfStr_pyStrOfInt, ih]

theorem cacheLoad_cacheSave (c : SleepSessionsJSONCache)
    (h : c.newest_session_id = 0 → c = emptyCacheMemory) :
    cacheLoad (some (cacheSave c)) = .ok c := by
  by_cases h0 : c.newest_session_id = 0
  · rw [h h0]; rfl
  · obtain ⟨ss, n, f⟩ := c
    have key : cacheLoad (some (cacheSave ⟨ss, n, f⟩)) =
        if n = 0 then
          .ok { sleep_sessions :=
                  (ss.map fun p => (pyStrOfInt p.1, p.2)).map fun p => (pyIntOfStr p.1, p.2)
                newest_session_id := 0
                first_session_id := 0 }
        else
          .ok { sleep_sessions :=
                  (ss.map fun p => (pyStrOfInt p.1, p.2)).map fun p => (pyIntOfStr p.1, p.2)
                newest_session_id := n
                first_session_id := f } := rfl
    rw [key, if_neg h0, recordMap_roundtrip]

/-! ### Claims -/

/-- C1: from an empty cache with externally supplied oldest remote id 10 and
newest remote id 12, against a remote session answering the exact query for
10 with record 10, NEXT-of-10 with record 11 and NEXT-of-11 with record 12,
`update_cache` first fetches and inserts record 10 via an exact-id fetch,
then repeatedly fetches NEXT of the cache's newest record and inserts it,
and terminates once id 12 is cached; the final cache holds exactly the
records with ids 10, 11, 12, with `first_session_id = 10` and
`newest_session_id = 12`. -/
theorem update_cache_walk_scenario :
    update_cache remoteWalk 10 12 emptyCacheMemory 5 = some (.ok cache101112, eventsWalk) ∧
    cache101112.sleep_sessions.map Prod.fst = [10, 11, 12] ∧
    cache101112.first_session_id = 10 ∧ cache101112.newest_session_id = 12 := by
  decide

/-- C2 counterexample: in the walk scenario the walker performs a cache
insertion for id 10 while id 10 is already a key of the cache — the
unconditional `self.cache.insert` in `update_cache` re-inserts the record
that `sleep_session` has just cached — so it is not the case that every
insertion of the fetch loop is for an id not already present. -/
theorem walker_inserts_present_id :
    update_cache remoteWalk 10 12 emptyCacheMemory 5 = some (.ok cache101112, eventsWalk) ∧
    Event.insertCall 10 true ∈ eventsWalk := by
  decide

/-- C2 (amended): inside `sleep_session` the membership check does precede
insertion — every insertion event it emits is for an id not already
present — but `update_cache` additionally calls `insert` unconditionally on
each record returned by `sleep_session`, re-inserting an already-present id;
no DuplicateInsert error condition exists in `__setitem__`, which accepts
duplicate ids silently, so the walk does not fail. -/
theorem sleep_session_inserts_only_absent (remote : Query → Option SleepSessionJSON)
    (cache : SleepSessionsJSONCache) (session_id : Int) (next_ previous : Bool)
    (k : Int) (b : Bool)
    (h : Event.insertCall k b ∈ (sleep_session remote cache session_id next_ previous).2) :
    b = false := by
  unfold sleep_session at h
  split at h
  · split at h <;> simp at h
  · rcases hq : remote (queryOf session_id next_ previous) with _ | resp <;>
      simp only [hq] at h
    · split at h
      · simp at h
      · split at h <;> simp at h
    · split at h
      · simp at h
      · split at h <;> simp_all

/-- Witness for `sleep_session_inserts_only_absent`: the walk scenario's
exact fetch of id 10 from the empty cache emits an insertion event, and the
theorem applies to it. -/
theorem sleep_session_inserts_only_absent_witness :
    Event.insertCall 10 false ∈ (sleep_session remoteWalk emptyCacheMemory 10 false false).2 ∧
      false = false :=
  ⟨by decide,
   sleep_session_inserts_only_absent remoteWalk emptyCacheMemory 10 false false 10 false
     (by decide)⟩

/-- C3 counterexample: id 5 is already a key of `cache5`, yet inserting a
record under id 5 again does not fail — it succeeds and replaces the stored
record for id 5, so the insert neither raises a DuplicateInsert-style error
nor leaves the cache unchanged. -/
theorem duplicate_insert_accepted :
    cacheInsert emptyCacheMemory rec5a = .ok cache5 ∧
    dictContains cache5.sleep_sessions 5 = true ∧
    setItem cache5 5 rec5b =
      .ok { sleep_sessions := [(5, rec5b)], newest_session_id := 5, first_session_id := 5 } ∧
    ({ sleep_sessions := [(5, rec5b)], newest_session_id := 5, first_session_id := 5 } :
      SleepSessionsJSONCache) ≠ cache5 := by
  decide

/-- C3 (amended): for every cache state and every non-zero id already
present among the cache's records, `__setitem__` succeeds instead of
failing: it overwrites the stored record in place, sets `newest_session_id`
to that id unconditionally, keeps `first_session_id` when it is set, and
persists the result. -/
theorem duplicate_insert_overwrites (c : SleepSessionsJSONCache) (session_id : Int)
    (s : SleepSessionJSON)
    (hmem : dictContains c.sleep_sessions session_id = true)
    (hnz : session_id ≠ 0) :
    setItem c session_id s =
      .ok { sleep_sessions :=
              c.sleep_sessions.map fun p => if p.1 = session_id then (session_id, s) else p
            newest_session_id := session_id
            first_session_id :=
              if c.first_session_id = 0 then session_id else c.first_session_id } := by
  unfold setItem dictSet
  rw [if_neg hnz, if_pos hmem]

/-- Witness for `duplicate_insert_overwrites` at the concrete duplicate
insert of `rec5b` over `cache5`. -/
theorem duplicate_insert_overwrites_witness :
    setItem cache5 5 rec5b =
      .ok { sleep_sessions := [(5, rec5b)], newest_session_id := 5, first_session_id := 5 } :=
  (duplicate_insert_overwrites cache5 5 rec5b (by decide) (by decide)).trans (by decide)

/-- C4: a cache produced by a sequence of inserts of records with unique
non-zero integer ids, when saved (as every insert does) and loaded back
from the same path, yields a cache with identical integer-keyed records
mapping, `first_session_id` and `newest_session_id`. -/
theorem cache_save_load_roundtrip (l : List SleepSessionJSON)
    (hnz : ∀ s ∈ l, s.id ≠ 0) (hnd : (l.map SleepSessionJSON.id).Nodup)
    (c : SleepSessionsJSONCache) (h : insertAll l emptyCacheMemory = .ok c) :
    cacheLoad (some (cacheSave c)) = .ok c := by
  refine cacheLoad_cacheSave c fun h0 => ?_
  rcases insertAll_newest_ne_zero l emptyCacheMemory c h with hc | hne
  · exact hc
  · exact absurd h0 hne

/-- Witness for `cache_save_load_roundtrip` on the cache built by inserting
records 10 and 11. -/
theorem cache_save_load_roundtrip_witness :
    cacheLoad (some (cacheSave cacheW)) = .ok cacheW :=
  cache_save_load_roundtrip [rec10, rec11] (by decide) (by decide) cacheW (by decide)

/-- C5: when the remote response body fails to parse as JSON (and a remote
request is actually issued), `sleep_session` fails with the ValueError
messages 'No next sleepsession' / 'No previous sleepsession' exactly when
the `next_` or `previous` flag was set, and re-raises the underlying
`json.decoder.JSONDecodeError` unchanged on an exact-id fetch. -/
theorem sleep_session_parse_failure (remote : Query → Option SleepSessionJSON)
    (cache : SleepSessionsJSONCache) (session_id : Int) (next_ previous : Bool)
    (hcall : next_ = true ∨ previous = true ∨
      dictContains cache.sleep_sessions session_id = false)
    (hremote : remote (queryOf session_id next_ previous) = none) :
    (sleep_session remote cache session_id next_ previous).1 =
      (if next_ then .error (.valueError "No next sleepsession")
       else if previous then .error (.valueError "No previous sleepsession")
       else .error .jsonDecodeError) ∧
    (((sleep_session remote cache session_id next_ previous).1 =
        .error (.valueError "No next sleepsession") ∨
      (sleep_session remote cache session_id next_ previous).1 =
        .error (.valueError "No previous sleepsession")) ↔
      (next_ = true ∨ previous = true)) := by
  cases next_ <;> cases previous <;> simp_all [sleep_session, queryOf]

/-- Witness for `sleep_session_parse_failure`: a NEXT query answered by a
non-JSON body fails with the 'No next sleepsession' ValueError. -/
theorem sleep_session_parse_failure_witness :
    (sleep_session (fun _ => none) emptyCacheMemory 1 true false).1 =
      .error (.valueError "No next sleepsession") := by
  have h := sleep_session_parse_failure (fun _ => none) emptyCacheMemory 1 true false
    (Or.inl rfl) rfl
  simpa using h.1

/-- C6: an exact-id request for an id already cached returns the cached
record with no remote call (and no cache change); a request with `next_` or
`previous` set issues exactly one remote call, whether or not the given id
is cached. -/
theorem sleep_session_cache_usage (remote : Query → Option SleepSessionJSON)
    (cache : SleepSessionsJSONCache) (session_id : Int) :
    (∀ r, dictGet? cache.sleep_sessions session_id = some r →
      sleep_session remote cache session_id false false = (.ok (r, cache), [])) ∧
    (∀ next_ previous : Bool, next_ = true ∨ previous = true →
      remoteCalls (sleep_session remote cache session_id next_ previous).2 = 1) := by
  constructor
  · intro r hr
    have hc : dictContains cache.sleep_sessions session_id = true := by
      rw [← dictGet?_isSome_eq_contains, hr]; rfl
    simp [sleep_session, hc, hr]
  · intro next_ previous hnp
    have hguard : (!next_ && !previous &&
        dictContains cache.sleep_sessions session_id) = false := by
      rcases hnp with h | h <;> subst h <;> simp
    unfold sleep_session
    rw [hguard, if_neg Bool.false_ne_true]
    rcases hq : remote (queryOf session_id next_ previous) with _ | resp
    · cases next_ <;> cases previous <;> simp [remoteCalls]
    · by_cases hc : dictContains cache.sleep_sessions resp.id = true
      · simp [hc, remoteCalls]
      · rcases hset : setItem cache resp.id resp with e | c' <;>
          simp [hc, hset, remoteCalls]

/-- Witness for `sleep_session_cache_usage`: the cached exact lookup of id 5
in `cache5`, and a NEXT request from `cache5` issuing one remote call. -/
theorem sleep_session_cache_usage_witness :
    sleep_session (fun _ => none) cache5 5 false false = (.ok (rec5a, cache5), []) ∧
    remoteCalls (sleep_session (fun _ => none) cache5 5 true false).2 = 1 :=
  ⟨(sleep_session_cache_usage (fun _ => none) cache5 5).1 rec5a (by decide),
   (sleep_session_cache_usage (fun _ => none) cache5 5).2 true false (Or.inl rfl)⟩

/-- C7: for every sequence of inserts of records with unique non-zero ids
into the initially empty cache, `first` returns the first-ever inserted
record (never changed by later inserts) and `newest` the most recently
inserted record; on the empty cache both are none. -/
theorem first_newest_tracking (l : List SleepSessionJSON) (c : SleepSessionsJSONCache)
    (hnz : ∀ s ∈ l, s.id ≠ 0) (hnd : (l.map SleepSessionJSON.id).Nodup)
    (h : insertAll l emptyCacheMemory = .ok c) :
    cacheFirst c = l.head? ∧ cacheNewest c = l.getLast? ∧
    cacheFirst emptyCacheMemory = none ∧ cacheNewest emptyCacheMemory = none := by
  refine ⟨?_, ?_, rfl, rfl⟩
  · cases l with
    | nil =>
      obtain rfl : emptyCacheMemory = c := Except.ok.inj h
      rfl
    | cons s t =>
      unfold insertAll at h
      cases hins : cacheInsert emptyCacheMemory s with
      | error e => rw [hins] at h; exact Except.noConfusion h
      | ok c1 =>
        rw [hins] at h
        obtain ⟨hid, hc1⟩ := cacheInsert_ok _ _ _ hins
        have hc1' : c1 = { sleep_sessions := [(s.id, s)], newest_session_id := s.id,
                           first_session_id := s.id } := by
          rw [hc1]; simp [dictSet, dictContains, emptyCacheMemory]
        have hget1 : dictGet? c1.sleep_sessions s.id = some s := by
          rw [hc1']; simp [dictGet?]
        have hfirst1 : c1.first_session_id = s.id := by rw [hc1']
        have hnotin : s.id ∉ t.map SleepSessionJSON.id := by
          rw [List.map_cons] at hnd
          exact (List.nodup_cons.mp hnd).1
        have hne : ∀ s' ∈ t, s'.id ≠ c1.first_session_id := by
          intro s' hs' hEq
          rw [hfirst1] at hEq
          exact hnotin (hEq ▸ List.mem_map_of_mem SleepSessionJSON.id hs')
        have h0' : c1.first_session_id ≠ 0 := by rw [hfirst1]; exact hid
        obtain ⟨ha, hb⟩ := insertAll_first t c1 c h0' hne h
        show dictGet? c.sleep_sessions c.first_session_id = some s
        rw [ha, hb, hfirst1, hget1]
  · cases l with
    | nil =>
      obtain rfl : emptyCacheMemory = c := Except.ok.inj h
      rfl
    | cons s t =>
      obtain ⟨sl, hlast, hn, hg⟩ :=
        insertAll_newest (s :: t) emptyCacheMemory c h (by simp)
      unfold cacheNewest
      rw [hn, hg, hlast]

/-- Witness for `first_newest_tracking` on the inserts of records 10
and 11. -/
theorem first_newest_tracking_witness :
    cacheFirst cacheW = some rec10 ∧ cacheNewest cacheW = some rec11 := by
  have h := first_newest_tracking [rec10, rec11] cacheW (by decide) (by decide) (by decide)
  exact ⟨h.1.trans (by decide), h.2.1.trans (by decide)⟩

/-- C8 counterexample: loading the legacy bare id-to-record mapping does not
succeed — `content['sleep_sessions']` raises `KeyError` — so the loader does
not tolerate the legacy shape with no explicit marker fields. -/
theorem legacy_shape_rejected :
    cacheLoad (some legacyFile) = .error (.keyError "sleep_sessions") := by
  decide

/-- C8 (amended): loading succeeds on a mapping with the explicit
`sleep_sessions` / `newest_session_id` / `first_session_id` fields (the
marker values are kept when `newest_session_id` is non-zero and reset to 0
otherwise); it fails with `KeyError` on any mapping without a
`sleep_sessions` field — in particular on the legacy bare id-to-record
shape — and with the JSON parse error when the file is not valid JSON. -/
theorem cacheLoad_accepted_shapes
    (m : List ((Bool × List Nat) × SleepSessionJSON)) (nid fid : Int)
    (entries : List (String × FileField))
    (hbare : ∀ p ∈ entries, p.1 ≠ "sleep_sessions") :
    cacheLoad (some { entries :=
        [("sleep_sessions", .recordMap m), ("newest_session_id", .intVal nid),
         ("first_session_id", .intVal fid)] }) =
      .ok { sleep_sessions := m.map fun p => (pyIntOfStr p.1, p.2)
            newest_session_id := if nid = 0 then 0 else nid
            first_session_id := if nid = 0 then 0 else fid } ∧
    cacheLoad (some { entries := entries }) = .error (.keyError "sleep_sessions") ∧
    cacheLoad none = .error .jsonDecodeError := by
  refine ⟨?_, ?_, rfl⟩
  · have key : cacheLoad (some { entries :=
        [("sleep_sessions", .recordMap m), ("newest_session_id", .intVal nid),
         ("first_session_id", .intVal fid)] }) =
        if nid = 0 then
          .ok { sleep_sessions := m.map fun p => (pyIntOfStr p.1, p.2)
                newest_session_id := 0, first_session_id := 0 }
        else
          .ok { sleep_sessions := m.map fun p => (pyIntOfStr p.1, p.2)
                newest_session_id := nid, first_session_id := fid } := rfl
    rw [key]
    by_cases h0 : nid = 0 <;> simp [h0]
  · have hnone := lookupStr_eq_none entries "sleep_sessions" hbare
    simp [cacheLoad, hnone]

/-- Witness for `cacheLoad_accepted_shapes` at a concrete three-field file,
a concrete field-free file, and the unparsable file. -/
theorem cacheLoad_accepted_shapes_witness :
    cacheLoad (some { entries := [("sleep_sessions", FileField.recordMap []),
        ("newest_session_id", FileField.intVal 7), ("first_session_id", FileField.intVal 9)] }) =
      .ok { sleep_sessions := [], newest_session_id := 7, first_session_id := 9 } := by
  have h := cacheLoad_accepted_shapes [] 7 9 [("10", FileField.record rec10)] (by decide)
  exact h.1.trans (by decide)

/-- C9: when the cache's `newest` record resolves (the truthiness test the
code runs on a non-empty well-formed cache) and the externally supplied
newest remote id is already cached, `update_cache` issues zero remote calls
— indeed performs no observable action — and returns the cache unchanged,
for every remote session and every fuel. -/
theorem update_cache_noop (remote : Query → Option SleepSessionJSON)
    (first_sleepsession_id last_sleepsession_id : Int)
    (cache : SleepSessionsJSONCache) (fuel : Nat) (r : SleepSessionJSON)
    (hnewest : cacheNewest cache = some r)
    (hlast : dictContains cache.sleep_sessions last_sleepsession_id = true) :
    update_cache remote first_sleepsession_id last_sleepsession_id cache fuel =
      some (.ok cache, []) := by
  unfold update_cache
  simp only [hnewest]
  unfold update_cache_loop
  rw [if_pos hlast]

/-- Witness for `update_cache_noop` on the cache holding records 10, 11, 12
with boundary newest id 12, even with zero fuel. -/
theorem update_cache_noop_witness :
    update_cache (fun _ => none) 10 12 cache101112 0 = some (.ok cache101112, []) :=
  update_cache_noop (fun _ => none) 10 12 cache101112 0 rec12 (by decide) (by decide)

/-- C10: `__setitem__` rejects session id 0 via its assertion and accepts
every non-zero id; 0 is thereby reserved as the unset sentinel stored in
`first_session_id` and `newest_session_id` of the empty cache (whose
`first` and `newest` are none), so an inserted record's id never collides
with the unset markers. -/
theorem zero_id_reserved (c : SleepSessionsJSONCache) (s : SleepSessionJSON)
    (session_id : Int) :
    setItem c 0 s = .error .assertionError ∧
    (session_id ≠ 0 → ∃ c', setItem c session_id s = .ok c') ∧
    emptyCacheMemory.first_session_id = 0 ∧ emptyCacheMemory.newest_session_id = 0 ∧
    cacheFirst emptyCacheMemory = none ∧ cacheNewest emptyCacheMemory = none := by
  refine ⟨rfl, fun h =>
    ⟨{ sleep_sessions := dictSet c.sleep_sessions session_id s
       newest_session_id := session_id
       first_session_id :=
         if c.first_session_id = 0 then session_id else c.first_session_id }, ?_⟩,
    rfl, rfl, rfl, rfl⟩
  unfold setItem
  rw [if_neg h]

/-- Witness for `zero_id_reserved`: inserting under id 0 fails the
assertion, inserting under id 7 passes it. -/
theorem zero_id_reserved_witness :
    setItem cache5 0 rec5b = .error .assertionError ∧
    ∃ c', setItem cache5 7 rec5b = .ok c' := by
  have h := zero_id_reserved cache5 rec5b 7
  exact ⟨h.1, h.2.1 (by decide)⟩

end Quelf
